import Mathlib

/-!
Shallow embedding of the Quasar Linux installer (`installer.py`) and proofs
about its command-execution, logging, disk-selection, partition, password
and cleanup behaviour.

Modelling conventions:
* The log is a `List String` of messages; the real `log_message` prefixes a
  wall-clock timestamp, which is abstracted away (it carries no logic).
* External command execution is a pure environment `env : String → CmdResult`
  mapping a command line to its exit code, stdout and stderr.
* Python control effects are reified: `sys.exit(n)` becomes
  `RunOutcome.exit n`, an uncaught Python exception becomes
  `RunOutcome.uncaught` (the interpreter then terminates with OS status 1),
  returning `None` becomes `RunOutcome.retNone`.
-/

/-- Python `str.strip()`: drop leading and trailing whitespace. -/
def pyStrip (s : String) : String :=
  ⟨(((s.toList.dropWhile Char.isWhitespace).reverse.dropWhile
      Char.isWhitespace).reverse)⟩

/-- Python `str.lower()` (the installer only lowercases ASCII answers). -/
def pyLower (s : String) : String :=
  ⟨s.toList.map Char.toLower⟩

/-- Result of one external command: exit code, stdout, stderr
(`CommandResult` of the spec). -/
structure CmdResult where
  exitCode : Nat
  stdout : String
  stderr : String
deriving DecidableEq

/-- How a `run_command` invocation ends, seen from the caller. -/
inductive RunOutcome where
  /-- normal return of a string (stripped stdout, or `""` in the streamed path) -/
  | ok (out : String)
  /-- Python `return None` (failure with `exit_on_error=False`) -/
  | retNone
  /-- `sys.exit status` -/
  | exit (status : Nat)
  /-- an uncaught Python exception of the given class escapes `run_command` -/
  | uncaught (exc : String)
deriving DecidableEq

/-- OS exit status of the process when the outcome terminates it
(an uncaught Python exception makes the interpreter exit with status 1). -/
def exitStatus : RunOutcome → Option Nat
  | RunOutcome.exit n => some n
  | RunOutcome.uncaught _ => some 1
  | _ => none

/-- `run_command(cmd, exit_on_error, show_progress)` of `installer.py`
(lines 175–230), given the command environment `env` and the current log.

Buffered path (`show_progress=False`): `subprocess.run(check=True)`; on
success `log_command` writes the `COMMAND:`/`OUTPUT:`/`ERROR:` lines and the
stripped stdout is returned; on failure `CalledProcessError` carries the
captured stderr, the handler logs `Command failed:`/`Error code:`/
`Error message:` and either calls `sys.exit(1)` or returns `None`.

Streamed path (`show_progress=True`): stdout is echoed to the terminal only;
non-empty stderr is logged as `Command error:`; on a non-zero exit code the
code raises `CalledProcessError(returncode, cmd)` whose `stderr` field is
`None`, so the handler's f-string `e.stderr.strip()` raises
`AttributeError` after logging the first two lines — `exit_on_error` is
never consulted on this path. -/
def run_command (env : String → CmdResult) (log : List String) (cmd : String)
    (exit_on_error : Bool) (show_progress : Bool) : RunOutcome × List String :=
  let log := log ++ ["Executing: " ++ cmd]
  let r := env cmd
  if show_progress then
    let log := if r.stderr ≠ "" then log ++ ["Command error: " ++ r.stderr] else log
    if r.exitCode ≠ 0 then
      let log := log ++ ["Command failed: " ++ cmd,
                         "Error code: " ++ toString r.exitCode]
      (RunOutcome.uncaught "AttributeError", log)
    else
      (RunOutcome.ok "", log)
  else
    if r.exitCode ≠ 0 then
      let log := log ++ ["Command failed: " ++ cmd,
                         "Error code: " ++ toString r.exitCode,
                         "Error message: " ++ pyStrip r.stderr]
      if exit_on_error then (RunOutcome.exit 1, log) else (RunOutcome.retNone, log)
    else
      let log := log ++ ["COMMAND: " ++ cmd]
      let log := if r.stdout ≠ "" then log ++ ["OUTPUT: " ++ r.stdout.take 500] else log
      let log := if r.stderr ≠ "" then log ++ ["ERROR: " ++ r.stderr] else log
      (RunOutcome.ok (pyStrip r.stdout), log)

/-- The shell single-quote character, used when the installer interpolates
user data into command lines. -/
def shq : String := (Char.ofNat 39).toString

/-- The `chpasswd` pipeline built by `set_password` (lines 418/420):
`echo 'root:PW' | artix-chroot /mnt chpasswd` for root, and
`echo 'USER:PW' | artix-chroot /mnt chpasswd` otherwise. -/
def chpasswdCmd (is_root : Bool) (username pw : String) : String :=
  if is_root then
    "echo " ++ shq ++ "root:" ++ pw ++ shq ++ " | artix-chroot /mnt chpasswd"
  else
    "echo " ++ shq ++ username ++ ":" ++ pw ++ shq ++ " | artix-chroot /mnt chpasswd"

/-- How a `set_password` run ends. -/
inductive PwResult where
  /-- the function returned normally -/
  | returned
  /-- the process terminated inside `run_command` (chpasswd failed, failFast) -/
  | fatal (status : Nat)
  /-- the scripted inputs ran out with the loop still re-prompting -/
  | exhausted
deriving DecidableEq

/-- `set_password(username, is_root)` of `installer.py` (lines 392–425),
driven by a scripted list of `getpass` input pairs (one pair per loop
iteration). Returns (result, final log, chpasswd commands issued).
On a matching pair the chpasswd pipeline is run via `run_command` with the
default `exit_on_error=True`; whatever string/None it returns, the code then
logs `Password set for …` and returns. On a mismatch the loop retries with
the next scripted pair; an empty script models the loop still prompting. -/
def set_password (env : String → CmdResult) (username : String) (is_root : Bool) :
    List (String × String) → List String → PwResult × List String × List String
  | [], log => (PwResult.exhausted, log, [])
  | (p1, p2) :: rest, log =>
    if p1 = p2 then
      let cmd := chpasswdCmd is_root username p1
      match run_command env log cmd true false with
      | (RunOutcome.exit n, log1) => (PwResult.fatal n, log1, [cmd])
      | (RunOutcome.uncaught _, log1) => (PwResult.fatal 1, log1, [cmd])
      | (_, log1) =>
        (PwResult.returned,
         log1 ++ ["Password set for " ++ (if is_root then "root" else username)],
         [cmd])
    else
      set_password env username is_root rest log

/-- Python `str` of a `bool`, as produced by the f-string interpolation
`f"... {uefi_mode} ..."` in `setup_chroot`. -/
def pyBoolStr (b : Bool) : String := if b then "True" else "False"

/-- The GRUB guard line of the generated chroot script (line 550):
`if [ {uefi_mode} -eq 1 ]; then`. -/
def chrootGrubGuard (uefi_mode : Bool) : String :=
  "if [ " ++ pyBoolStr uefi_mode ++ " -eq 1 ]; then"

/-- Decimal-digit accumulator for `parseDecInt`. -/
def parseDigitsAux : List Char → Nat → Option Nat
  | [], acc => some acc
  | c :: cs, acc =>
    if Char.ofNat 48 ≤ c ∧ c ≤ Char.ofNat 57 then
      parseDigitsAux cs (acc * 10 + (c.toNat - 48))
    else
      none

/-- Decimal integer literals: an optional leading minus sign followed by
decimal digits. This is both what bash's `test`/`[` numeric comparisons
accept (anything else is an `integer expression expected` error) and what
Python's `int(...)` accepts on the already-stripped strings involved here
(a `ValueError` on anything else maps to `none`). -/
def parseDecInt (s : String) : Option Int :=
  match s.toList with
  | [] => none
  | c :: cs =>
    if c = Char.ofNat 45 then
      match cs with
      | [] => none
      | _ => (parseDigitsAux cs 0).map (fun n => -(n : Int))
    else
      (parseDigitsAux (c :: cs) 0).map (fun n => (n : Int))

/-- bash `[ s -eq 1 ]`: true iff `s` is an integer literal equal to 1.
A non-integer operand is a test error (`integer expression expected`), which
exits non-zero, so `if` takes the else branch exactly as for a false test. -/
def bashTestEq1 (s : String) : Bool :=
  match parseDecInt s with
  | some n => n == 1
  | none => false

/-- The two grub-install branches of the generated chroot script. -/
inductive GrubBranch where
  /-- lines 551–562: `grub-install --target=x86_64-efi …` into `/boot/efi`
  followed by the `grubx64.efi` existence check -/
  | uefi
  /-- lines 564–565: `grub-install --target=i386-pc DISK --recheck` -/
  | bios
deriving DecidableEq

/-- The grub-install command each branch of the script would run. -/
def grubInstallCmd : GrubBranch → String → String
  | GrubBranch.uefi, _ =>
      "grub-install --target=x86_64-efi --efi-directory=/boot/efi --bootloader-id=GRUB --recheck"
  | GrubBranch.bios, disk => "grub-install --target=i386-pc " ++ disk ++ " --recheck"

/-- Which branch the generated script's `if` actually executes, given the
boot-mode flag the Python code interpolated into the guard. -/
def grubBranchTaken (uefi_mode : Bool) : GrubBranch :=
  if bashTestEq1 (pyBoolStr uefi_mode) then GrubBranch.uefi else GrubBranch.bios

/-- One observable step of the format/mount stage. -/
inductive Event where
  /-- a `run_command` invocation with the given command line -/
  | run (cmd : String)
  /-- `os.makedirs(path, exist_ok=True)` -/
  | mkdirp (path : String)
deriving DecidableEq

/-- `format_partitions(uefi_mode, root_part, boot_part)` (lines 341–364) as
the sequence of commands it issues: the boot partition gets `mkfs.fat -F32`
under UEFI and `mkfs.ext4 -F` otherwise, then the root partition always gets
`mkfs.ext4 -F`. -/
def format_partitions (uefi_mode : Bool) (root_part boot_part : String) : List Event :=
  (if uefi_mode then [Event.run ("mkfs.fat -F32 " ++ boot_part)]
   else [Event.run ("mkfs.ext4 -F " ++ boot_part)])
  ++ [Event.run ("mkfs.ext4 -F " ++ root_part)]

/-- `mount_partitions(uefi_mode, root_part, boot_part)` (lines 366–390) as
the sequence of steps it performs: mount root at `/mnt` first, then create
the boot directory and mount the boot partition at `/mnt/boot/efi` (UEFI) or
`/mnt/boot` (BIOS). -/
def mount_partitions (uefi_mode : Bool) (root_part boot_part : String) : List Event :=
  [Event.run ("mount " ++ root_part ++ " /mnt")]
  ++ (if uefi_mode then
        [Event.mkdirp "/mnt/boot/efi", Event.run ("mount " ++ boot_part ++ " /mnt/boot/efi")]
      else
        [Event.mkdirp "/mnt/boot", Event.run ("mount " ++ boot_part ++ " /mnt/boot")])

/-- `main` (lines 653–656) runs `format_partitions` to completion and then
`mount_partitions`: the combined event trace of the two stages. -/
def format_mount_trace (uefi_mode : Bool) (root_part boot_part : String) : List Event :=
  format_partitions uefi_mode root_part boot_part
    ++ mount_partitions uefi_mode root_part boot_part

/-- Python's `os.path.basename`: the component after the last slash. -/
def pyBasename (p : String) : String :=
  match (p.splitOn "/").reverse with
  | [] => p
  | x :: _ => x

/-- Python's substring test `needle in haystack`. -/
def pyIn (needle hay : String) : Bool :=
  decide (needle.toList <:+: hay.toList)

/-- `check_disk_type(disk)` (lines 245–257): reads
`/sys/block/{basename disk}/queue/rotational` and parses it as an int;
`1` is an HDD, any other int an SSD; any failure (read or parse — the
`except Exception` catches both) yields the unknown classification.
`readFile` models `open(...).read()`, `none` being a raised `OSError`. -/
def check_disk_type (readFile : String → Option String) (disk : String) : String :=
  let path := "/sys/block/" ++ pyBasename disk ++ "/queue/rotational"
  match (readFile path).bind (fun s => parseDecInt (pyStrip s)) with
  | some r => if r = 1 then "HDD (механический)" else "SSD (твердотельный)"
  | none => "Неизвестный"

/-- How a `select_disk` run ends. -/
inductive SelectResult where
  /-- the function returned this device path -/
  | selected (path : String)
  /-- the scripted operator inputs ran out with the loop still prompting -/
  | exhausted
deriving DecidableEq

/-- `select_disk(disks)` (lines 276–310), driven by a scripted list of
operator inputs consumed in prompt order (a disk choice, then — only when
the HDD warning fires — a confirmation answer). `ex` models
`os.path.exists`. Returns (result, log). A nonexistent path logs the
invalid choice and loops; an existing path is logged with its
classification; the HDD gate returns the path only on a stripped,
lowercased `y` and otherwise loops back to selection. -/
def select_disk (ex : String → Bool) (readFile : String → Option String) :
    List String → SelectResult × List String
  | [] => (SelectResult.exhausted, [])
  | choice :: rest =>
    let disk_path := "/dev/" ++ pyStrip choice
    if ex disk_path then
      let dt := check_disk_type readFile disk_path
      let lg := ["Selected disk: " ++ disk_path ++ " (" ++ dt ++ ")"]
      if pyIn "HDD" dt then
        match rest with
        | [] => (SelectResult.exhausted, lg)
        | confirm :: rest2 =>
          if pyLower (pyStrip confirm) = "y" then
            (SelectResult.selected disk_path, lg)
          else
            let (r, lg2) := select_disk ex readFile rest2
            (r, lg ++ lg2)
      else
        (SelectResult.selected disk_path, lg)
    else
      let (r, lg2) := select_disk ex readFile rest
      (r, ("Invalid disk selected: " ++ disk_path) :: lg2)

/-- Environment for the asset-copy section of `install_base_system`:
which `shutil` operations succeed, which source files exist, and the
command environment for the `chown`/`chmod` invocations. -/
structure AssetEnv where
  /-- `shutil.copytree(INSTALLER_DIR/pixmap, /mnt/usr/share/pixmap)` succeeds -/
  pixmapCopyOk : Bool
  /-- `os.path.exists(INSTALLER_DIR/f)` for the scripts and the systemctl shim -/
  fileExists : String → Bool
  /-- `shutil.copy` of the given file succeeds -/
  fileCopyOk : String → Bool
  /-- command environment for `run_command` calls inside the section -/
  cmd : String → CmdResult

/-- Cumulative result of the asset-copy section. -/
structure CopyOut where
  /-- assets successfully copied, in order -/
  copies : List String
  log : List String
  /-- the `except Exception` handler ran -/
  errorCaught : Bool
  /-- `some n`: the process terminated inside a `run_command` (`sys.exit`) -/
  aborted : Option Nat

/-- One iteration of the `for script in ["INSTALL.sh", "INST.sh"]` loop
(lines 474–480): skip if the source is missing; `shutil.copy` (an exception
goes to the shared handler), then `chown` and `chmod +x` via `run_command`
with the default `exit_on_error=True` (a failure exits the process — the
`except Exception` clause does not catch `SystemExit`), then the log line. -/
def copy_one_script (env : AssetEnv) (username script : String)
    (copies : List String) (log : List String) :
    (Nat × List String) ⊕ (Option String × List String × List String) :=
  if env.fileExists script then
    if env.fileCopyOk script then
      let chown := "chown " ++ username ++ ":" ++ username
                     ++ " /mnt/home/" ++ username ++ "/" ++ script
      match run_command env.cmd log chown true false with
      | (RunOutcome.exit n, log1) => Sum.inl (n, log1)
      | (_, log1) =>
        let chmod := "chmod +x /mnt/home/" ++ username ++ "/" ++ script
        match run_command env.cmd log1 chmod true false with
        | (RunOutcome.exit n, log2) => Sum.inl (n, log2)
        | (_, log2) =>
          Sum.inr (none, copies ++ [script],
                   log2 ++ ["Copied " ++ script ++ " to /mnt/home/" ++ username ++ "/"])
    else
      Sum.inr (some ("copy " ++ script ++ " failed"), copies, log)
  else
    Sum.inr (none, copies, log)

/-- The asset-copy section of `install_base_system` (lines 466–491): one
`try` block copying the pixmap tree, the two post-install scripts and the
systemctl shim in sequence; the first `shutil` failure jumps to the single
`except Exception` handler, which logs `Error copying files: …` and falls
through — the section never aborts the run by itself, but a failed
`run_command` inside it exits the process. -/
def copy_files (env : AssetEnv) (username : String) (log : List String) : CopyOut :=
  if env.pixmapCopyOk then
    match copy_one_script env username "INSTALL.sh" ["pixmap"] log with
    | Sum.inl (n, log1) =>
      { copies := ["pixmap"], log := log1, errorCaught := false, aborted := some n }
    | Sum.inr (some e, copies1, log1) =>
      { copies := copies1, log := log1 ++ ["Error copying files: " ++ e],
        errorCaught := true, aborted := none }
    | Sum.inr (none, copies1, log1) =>
      match copy_one_script env username "INST.sh" copies1 log1 with
      | Sum.inl (n, log2) =>
        { copies := copies1, log := log2, errorCaught := false, aborted := some n }
      | Sum.inr (some e, copies2, log2) =>
        { copies := copies2, log := log2 ++ ["Error copying files: " ++ e],
          errorCaught := true, aborted := none }
      | Sum.inr (none, copies2, log2) =>
        if env.fileExists "systemctl" then
          if env.fileCopyOk "systemctl" then
            { copies := copies2 ++ ["systemctl"],
              log := log2 ++ ["Copied systemctl to /mnt/usr/local/bin/"],
              errorCaught := false, aborted := none }
          else
            { copies := copies2,
              log := log2 ++ ["Error copying files: copy systemctl failed"],
              errorCaught := true, aborted := none }
        else
          { copies := copies2, log := log2, errorCaught := false, aborted := none }
  else
    { copies := [], log := log ++ ["Error copying files: copytree pixmap failed"],
      errorCaught := true, aborted := none }

/-- After the copy section, `install_base_system` (line 494) calls
`setup_chroot` unconditionally — unless a `run_command` inside the section
already exited the process. Returns the copy result and whether the
chroot-configuration stage is reached. -/
def install_tail (env : AssetEnv) (username : String) (log : List String) :
    CopyOut × Bool :=
  let c := copy_files env username log
  match c.aborted with
  | some _ => (c, false)
  | none => (c, true)

/-- Tail of `main` (lines 666–670): the final cleanup unmount with
`exit_on_error=False` (and `show_progress` left at its default `False`),
followed by the success message and log line; falling off the end of `main`
exits the interpreter with status 0. Returns (process exit status, log). -/
def main_cleanup (env : String → CmdResult) (log : List String) : Nat × List String :=
  match run_command env log "umount -R /mnt" false false with
  | (RunOutcome.exit n, log1) => (n, log1)
  | (RunOutcome.uncaught _, log1) => (1, log1)
  | (_, log1) => (0, log1 ++ ["Installation completed successfully"])

/-! ## Helper lemmas -/

/-- Mismatching pairs make `set_password` loop past them untouched. -/
theorem set_password_no_match (env : String → CmdResult) (u : String) (ir : Bool) :
    ∀ (inputs : List (String × String)) (log : List String),
      (∀ pq ∈ inputs, pq.1 ≠ pq.2) →
      set_password env u ir inputs log = (PwResult.exhausted, log, []) := by
  intro inputs
  induction inputs with
  | nil => intro log _; rfl
  | cons pq rest ih =>
    intro log h
    obtain ⟨p1, p2⟩ := pq
    have h1 : p1 ≠ p2 := h (p1, p2) (List.mem_cons_self _ _)
    have h2 : ∀ q ∈ rest, q.1 ≠ q.2 := fun q hq => h q (List.mem_cons_of_mem _ hq)
    simp only [set_password, if_neg h1]
    exact ih log h2

/-- The first matching pair completes `set_password`: the chpasswd pipeline
is issued exactly once and the function returns. -/
theorem set_password_first_match (env : String → CmdResult) (u : String) (ir : Bool)
    (p : String) :
    ∀ (pre rest : List (String × String)) (log : List String),
      (∀ pq ∈ pre, pq.1 ≠ pq.2) →
      (env (chpasswdCmd ir u p)).exitCode = 0 →
      (set_password env u ir (pre ++ (p, p) :: rest) log).1 = PwResult.returned
      ∧ (set_password env u ir (pre ++ (p, p) :: rest) log).2.2
          = [chpasswdCmd ir u p] := by
  intro pre
  induction pre with
  | nil =>
    intro rest log _ henv
    simp [set_password, run_command, henv]
  | cons pq pre ih =>
    intro rest log h henv
    obtain ⟨p1, p2⟩ := pq
    have h1 : p1 ≠ p2 := h (p1, p2) (List.mem_cons_self _ _)
    have h2 : ∀ q ∈ pre, q.1 ≠ q.2 := fun q hq => h q (List.mem_cons_of_mem _ hq)
    simp only [List.cons_append, set_password, if_neg h1]
    exact ih rest log h2 henv

/-! ## Claim theorems -/

/-- Claim C1 (refuted — the code leaks the password into the log): running
`set_password` for root with the matching pair `secret123`/`secret123`
returns normally, but the log contains the full `Executing: …` line for the
chpasswd pipeline, and that line has the plaintext password as a substring.
The spec's "the log records only the fact that a password was set" fails:
`run_command` logs every command line verbatim before executing it. -/
theorem C1_plaintext_password_in_log :
    (set_password (fun _ => CmdResult.mk 0 "" "") "alice" true
        [("secret123", "secret123")] []).1 = PwResult.returned
    ∧ ("Executing: " ++ chpasswdCmd true "alice" "secret123")
        ∈ (set_password (fun _ => CmdResult.mk 0 "" "") "alice" true
            [("secret123", "secret123")] []).2.1
    ∧ ∃ line ∈ (set_password (fun _ => CmdResult.mk 0 "" "") "alice" true
          [("secret123", "secret123")] []).2.1,
        "secret123".toList <:+: line.toList := by
  decide

/-- Claim C2 (refuted — the UEFI branch is dead code): the generated chroot
script's guard under UEFI is the literal `if [ True -eq 1 ]; then`, because
the Python f-string renders the boolean as `True`/`False`; bash's `-eq`
requires integer operands, so the test fails and the script executes the
BIOS branch `grub-install --target=i386-pc DISK --recheck` in both boot
modes. The UEFI install-and-verify branch is never reached. -/
theorem C2_uefi_branch_never_taken :
    chrootGrubGuard true = "if [ True -eq 1 ]; then"
    ∧ chrootGrubGuard false = "if [ False -eq 1 ]; then"
    ∧ grubBranchTaken true = GrubBranch.bios
    ∧ grubBranchTaken false = GrubBranch.bios
    ∧ grubInstallCmd (grubBranchTaken true) "/dev/sda"
        = "grub-install --target=i386-pc /dev/sda --recheck" := by
  decide

/-- Claim C3 (confirmed): the full format/mount trace in each boot mode.
Under UEFI the boot partition gets `mkfs.fat -F32` and is mounted at
`/mnt/boot/efi`; otherwise it gets `mkfs.ext4 -F` and is mounted at
`/mnt/boot`. The root partition always gets `mkfs.ext4 -F` and is mounted at
`/mnt`, its mount (position 2) preceding the boot mount (position 4); both
format events (positions 0–1) precede every mount event (positions 2–4). -/
theorem C3_format_mount_mapping (root_part boot_part : String) :
    format_mount_trace true root_part boot_part =
      [Event.run ("mkfs.fat -F32 " ++ boot_part),
       Event.run ("mkfs.ext4 -F " ++ root_part),
       Event.run ("mount " ++ root_part ++ " /mnt"),
       Event.mkdirp "/mnt/boot/efi",
       Event.run ("mount " ++ boot_part ++ " /mnt/boot/efi")]
    ∧ format_mount_trace false root_part boot_part =
      [Event.run ("mkfs.ext4 -F " ++ boot_part),
       Event.run ("mkfs.ext4 -F " ++ root_part),
       Event.run ("mount " ++ root_part ++ " /mnt"),
       Event.mkdirp "/mnt/boot",
       Event.run ("mount " ++ boot_part ++ " /mnt/boot")] :=
  ⟨rfl, rfl⟩

/-- Claim C4 counterexample: a failing command with exit code 2 under
failFast makes the process exit with status 1, not with the command's own
exit status 2 — `run_command` always calls `sys.exit(1)`. -/
theorem C4_counterexample :
    exitStatus (run_command (fun _ => CmdResult.mk 2 "" "mkfs: cannot open /dev/sda2")
        [] "mkfs.ext4 -F /dev/sda2" true false).1 = some 1
    ∧ exitStatus (run_command (fun _ => CmdResult.mk 2 "" "mkfs: cannot open /dev/sda2")
        [] "mkfs.ext4 -F /dev/sda2" true false).1 ≠ some 2 := by
  decide

/-- Claim C4 as amended (proved): for every failing command under failFast,
the process terminates with status 1 (non-zero, but independent of the
command's own exit code), and the log contains the command, its exit code,
and its error text (`Error message:` in the buffered path; `Command error:`,
when stderr is non-empty, in the streamed path). -/
theorem C4_failfast_exit_and_log (env : String → CmdResult) (log : List String)
    (cmd : String) (sp : Bool) (h : (env cmd).exitCode ≠ 0) :
    exitStatus (run_command env log cmd true sp).1 = some 1
    ∧ ("Command failed: " ++ cmd) ∈ (run_command env log cmd true sp).2
    ∧ ("Error code: " ++ toString (env cmd).exitCode) ∈ (run_command env log cmd true sp).2
    ∧ (sp = false →
        ("Error message: " ++ pyStrip (env cmd).stderr) ∈ (run_command env log cmd true sp).2)
    ∧ (sp = true → (env cmd).stderr ≠ "" →
        ("Command error: " ++ (env cmd).stderr) ∈ (run_command env log cmd true sp).2) := by
  cases sp <;> by_cases hs : (env cmd).stderr = "" <;>
    simp [run_command, h, hs, exitStatus]

/-- Witness for `C4_failfast_exit_and_log` at a concrete failing command. -/
theorem C4_failfast_exit_and_log_witness :
    (((fun _ => CmdResult.mk 2 "" "boom") : String → CmdResult) "mkfs.ext4 -F /dev/sda2").exitCode ≠ 0
    ∧ exitStatus (run_command (fun _ => CmdResult.mk 2 "" "boom")
        [] "mkfs.ext4 -F /dev/sda2" true false).1 = some 1 :=
  ⟨by decide,
   (C4_failfast_exit_and_log (fun _ => CmdResult.mk 2 "" "boom")
      [] "mkfs.ext4 -F /dev/sda2" false (by decide)).1⟩

/-- Claim C5 (refuted for the streamed path — the error handler itself
crashes): with `show_progress=True` and `exit_on_error=False`, a command
exiting non-zero does not make `run_command` return `None`; the handler's
`e.stderr.strip()` dereferences the `None` stderr of the re-raised
`CalledProcessError` and an uncaught `AttributeError` terminates the
process, so the driver never continues. (The buffered path does return
`None` as claimed.) -/
theorem C5_streamed_nofailfast_crashes :
    (run_command (fun _ => CmdResult.mk 32 "" "umount: /mnt: target is busy")
        [] "umount -R /mnt" false true).1 = RunOutcome.uncaught "AttributeError"
    ∧ (run_command (fun _ => CmdResult.mk 32 "" "umount: /mnt: target is busy")
        [] "umount -R /mnt" false true).1 ≠ RunOutcome.retNone
    ∧ (run_command (fun _ => CmdResult.mk 32 "" "umount: /mnt: target is busy")
        [] "umount -R /mnt" false false).1 = RunOutcome.retNone := by
  decide

/-- Claim C6 (confirmed): with scripted secret-input pairs, (a) if every
pair mismatches, `set_password` is still prompting when the script runs out,
having issued no chpasswd command and left the log untouched; (b) if the
script is some mismatching pairs followed by a matching pair, the function
returns and the chpasswd pipeline for the matching password is issued
exactly once. -/
theorem C6_password_confirmation (env : String → CmdResult) (u : String) (ir : Bool)
    (inputs : List (String × String)) (log : List String) :
    ((∀ pq ∈ inputs, pq.1 ≠ pq.2) →
        set_password env u ir inputs log = (PwResult.exhausted, log, []))
    ∧ (∀ pre p rest, inputs = pre ++ (p, p) :: rest →
        (∀ pq ∈ pre, pq.1 ≠ pq.2) →
        (env (chpasswdCmd ir u p)).exitCode = 0 →
        (set_password env u ir inputs log).1 = PwResult.returned
        ∧ (set_password env u ir inputs log).2.2 = [chpasswdCmd ir u p]) := by
  constructor
  · exact set_password_no_match env u ir inputs log
  · rintro pre p rest rfl hpre henv
    exact set_password_first_match env u ir p pre rest log hpre henv

/-- Witness for `C6_password_confirmation`: one mismatched pair followed by
a matching pair completes the step with exactly one chpasswd command. -/
theorem C6_password_confirmation_witness :
    (set_password (fun _ => CmdResult.mk 0 "" "") "alice" false
        [("a", "b"), ("pw", "pw")] []).1 = PwResult.returned
    ∧ (set_password (fun _ => CmdResult.mk 0 "" "") "alice" false
        [("a", "b"), ("pw", "pw")] []).2.2 = [chpasswdCmd false "alice" "pw"] :=
  (C6_password_confirmation (fun _ => CmdResult.mk 0 "" "") "alice" false
      [("a", "b"), ("pw", "pw")] []).2
    [("a", "b")] "pw" [] rfl (by decide) (by decide)

/-- Claim C7 (confirmed): in the disk-selection loop, (a) a nonexistent
device path just re-prompts — the result is that of the loop on the
remaining inputs, and no selection happens; (b) an existing device that
classifies as HDD is returned only when the confirmation answer, stripped
and lowercased, is exactly `y`; any other answer sends the loop back to
selection on the remaining inputs. -/
theorem C7_select_disk_gate (ex : String → Bool) (readFile : String → Option String)
    (choice confirm : String) (rest : List String) :
    (ex ("/dev/" ++ pyStrip choice) = false →
        (select_disk ex readFile (choice :: rest)).1 = (select_disk ex readFile rest).1)
    ∧ (ex ("/dev/" ++ pyStrip choice) = true →
        pyIn "HDD" (check_disk_type readFile ("/dev/" ++ pyStrip choice)) = true →
        ((pyLower (pyStrip confirm) = "y" →
            (select_disk ex readFile (choice :: confirm :: rest)).1
              = SelectResult.selected ("/dev/" ++ pyStrip choice))
         ∧ (pyLower (pyStrip confirm) ≠ "y" →
            (select_disk ex readFile (choice :: confirm :: rest)).1
              = (select_disk ex readFile rest).1))) := by
  refine ⟨fun hex => ?_, fun hex hhdd => ⟨fun hy => ?_, fun hn => ?_⟩⟩
  · simp [select_disk, hex]
  · simp [select_disk, hex, hhdd, hy]
  · simp [select_disk, hex, hhdd, hn]

/-- Witness for `C7_select_disk_gate`: only `/dev/sda` exists and is
rotational; a wrong confirmation answer returns to selection, `Y` accepts. -/
theorem C7_select_disk_gate_witness :
    (select_disk (fun p => p == "/dev/sda") (fun _ => some "1") ["sdb"]).1
        = (select_disk (fun p => p == "/dev/sda") (fun _ => some "1") []).1
    ∧ (select_disk (fun p => p == "/dev/sda") (fun _ => some "1") ["sda", "Y"]).1
        = SelectResult.selected ("/dev/" ++ pyStrip "sda")
    ∧ (select_disk (fun p => p == "/dev/sda") (fun _ => some "1") ["sda", "n"]).1
        = (select_disk (fun p => p == "/dev/sda") (fun _ => some "1") []).1 := by
  refine ⟨?_, ?_, ?_⟩
  · exact (C7_select_disk_gate (fun p => p == "/dev/sda") (fun _ => some "1")
      "sdb" "y" []).1 (by decide)
  · exact ((C7_select_disk_gate (fun p => p == "/dev/sda") (fun _ => some "1")
      "sda" "Y" []).2 (by decide) (by decide)).1 (by decide)
  · exact ((C7_select_disk_gate (fun p => p == "/dev/sda") (fun _ => some "1")
      "sda" "n" []).2 (by decide) (by decide)).2 (by decide)

/-- Claim C8 counterexample: with the pixmap tree copy failing but
`INSTALL.sh` present and copyable, the single shared `try` block means no
asset at all is copied — in particular `INSTALL.sh` is skipped — even though
the error is caught and the chroot stage is still reached. The copies are
not independently best-effort. -/
def assetEnvPixmapFail : AssetEnv :=
  { pixmapCopyOk := false
    fileExists := fun _ => true
    fileCopyOk := fun _ => true
    cmd := fun _ => CmdResult.mk 0 "" "" }

/-- Claim C8 counterexample (see `assetEnvPixmapFail`). -/
theorem C8_counterexample :
    assetEnvPixmapFail.fileExists "INSTALL.sh" = true
    ∧ assetEnvPixmapFail.fileCopyOk "INSTALL.sh" = true
    ∧ (install_tail assetEnvPixmapFail "alice" []).1.errorCaught = true
    ∧ (install_tail assetEnvPixmapFail "alice" []).1.copies = []
    ∧ (install_tail assetEnvPixmapFail "alice" []).2 = true := by
  decide

/-- Claim C8 as amended (proved): whichever single copy fails — the pixmap
tree, `INSTALL.sh`, `INST.sh` or the systemctl shim — the failure is caught
by the shared handler and logged, the run is not aborted and the
chroot-configuration stage is still reached, but every copy after the
failing one is skipped: the final copy list is exactly what had already been
copied before the failure. The `INST.sh` and systemctl cases are stated
relative to the state the preceding script steps passed on (their
`Sum.inr (none, …)` results), which is how `copy_files` reaches them. -/
theorem C8_copy_failure_shared_scope (env : AssetEnv) (u : String) (log : List String) :
    (env.pixmapCopyOk = false →
      (install_tail env u log).1.errorCaught = true
      ∧ "Error copying files: copytree pixmap failed" ∈ (install_tail env u log).1.log
      ∧ (install_tail env u log).1.aborted = none
      ∧ (install_tail env u log).2 = true
      ∧ (install_tail env u log).1.copies = [])
    ∧ (env.pixmapCopyOk = true → env.fileExists "INSTALL.sh" = true →
       env.fileCopyOk "INSTALL.sh" = false →
      (install_tail env u log).1.errorCaught = true
      ∧ "Error copying files: copy INSTALL.sh failed" ∈ (install_tail env u log).1.log
      ∧ (install_tail env u log).1.aborted = none
      ∧ (install_tail env u log).2 = true
      ∧ (install_tail env u log).1.copies = ["pixmap"])
    ∧ (∀ copies1 log1, env.pixmapCopyOk = true →
       copy_one_script env u "INSTALL.sh" ["pixmap"] log = Sum.inr (none, copies1, log1) →
       env.fileExists "INST.sh" = true → env.fileCopyOk "INST.sh" = false →
      (install_tail env u log).1.errorCaught = true
      ∧ "Error copying files: copy INST.sh failed" ∈ (install_tail env u log).1.log
      ∧ (install_tail env u log).1.aborted = none
      ∧ (install_tail env u log).2 = true
      ∧ (install_tail env u log).1.copies = copies1)
    ∧ (∀ copies1 log1 copies2 log2, env.pixmapCopyOk = true →
       copy_one_script env u "INSTALL.sh" ["pixmap"] log = Sum.inr (none, copies1, log1) →
       copy_one_script env u "INST.sh" copies1 log1 = Sum.inr (none, copies2, log2) →
       env.fileExists "systemctl" = true → env.fileCopyOk "systemctl" = false →
      (install_tail env u log).1.errorCaught = true
      ∧ "Error copying files: copy systemctl failed" ∈ (install_tail env u log).1.log
      ∧ (install_tail env u log).1.aborted = none
      ∧ (install_tail env u log).2 = true
      ∧ (install_tail env u log).1.copies = copies2) := by
  refine ⟨fun hpix => ?_, fun hpix hex hcp => ?_,
          fun copies1 log1 hpix hstep1 hex hcp => ?_,
          fun copies1 log1 copies2 log2 hpix hstep1 hstep2 hex hcp => ?_⟩
  · simp [install_tail, copy_files, hpix]
  · have hstep1 : copy_one_script env u "INSTALL.sh" ["pixmap"] log
        = Sum.inr (some "copy INSTALL.sh failed", ["pixmap"], log) := by
      simp [copy_one_script, hex, hcp]
    simp [install_tail, copy_files, hpix, hstep1]
  · have hstep2 : copy_one_script env u "INST.sh" copies1 log1
        = Sum.inr (some "copy INST.sh failed", copies1, log1) := by
      simp [copy_one_script, hex, hcp]
    simp [install_tail, copy_files, hpix, hstep1, hstep2]
  · simp [install_tail, copy_files, hpix, hstep1, hstep2, hex, hcp]

/-- Environment for the `C8_copy_failure_shared_scope` witness: every asset
source exists, every copy succeeds except the one named `failing`, and the
`chown`/`chmod` commands succeed. -/
def assetEnvFailOn (failing : String) : AssetEnv :=
  { pixmapCopyOk := true
    fileExists := fun _ => true
    fileCopyOk := fun s => !(s == failing)
    cmd := fun _ => CmdResult.mk 0 "" "" }

/-- Witness for `C8_copy_failure_shared_scope`: one concrete run per failing
copy site — the pixmap tree, `INSTALL.sh`, `INST.sh` and the systemctl shim
— each caught by the shared handler. -/
theorem C8_copy_failure_shared_scope_witness :
    (install_tail assetEnvPixmapFail "alice" []).1.errorCaught = true
    ∧ (install_tail (assetEnvFailOn "INSTALL.sh") "alice" []).1.errorCaught = true
    ∧ (install_tail (assetEnvFailOn "INST.sh") "alice" []).1.errorCaught = true
    ∧ (install_tail (assetEnvFailOn "systemctl") "alice" []).1.errorCaught = true := by
  refine ⟨?_, ?_, ?_, ?_⟩
  · exact ((C8_copy_failure_shared_scope assetEnvPixmapFail "alice" []).1 rfl).1
  · exact ((C8_copy_failure_shared_scope (assetEnvFailOn "INSTALL.sh") "alice" []).2.1
      rfl rfl (by decide)).1
  · exact ((C8_copy_failure_shared_scope (assetEnvFailOn "INST.sh") "alice" []).2.2.1
      _ _ rfl rfl rfl (by decide)).1
  · exact ((C8_copy_failure_shared_scope (assetEnvFailOn "systemctl") "alice" []).2.2.2
      _ _ _ _ rfl rfl rfl rfl (by decide)).1

/-- Claim C9 (confirmed): when reading (or parsing) the per-device
rotational flag fails, `check_disk_type` classifies the disk as unknown
(`Неизвестный`), the HDD substring test is false, and `select_disk` returns
the chosen device path immediately — no confirmation input is consumed and
the HDD gate is bypassed. -/
theorem C9_unknown_media_skips_confirmation (ex : String → Bool)
    (readFile : String → Option String) (choice : String) (rest : List String)
    (h1 : ex ("/dev/" ++ pyStrip choice) = true)
    (h2 : (readFile ("/sys/block/" ++ pyBasename ("/dev/" ++ pyStrip choice)
            ++ "/queue/rotational")).bind (fun s => parseDecInt (pyStrip s)) = none) :
    check_disk_type readFile ("/dev/" ++ pyStrip choice) = "Неизвестный"
    ∧ (select_disk ex readFile (choice :: rest)).1
        = SelectResult.selected ("/dev/" ++ pyStrip choice) := by
  have hdt : check_disk_type readFile ("/dev/" ++ pyStrip choice) = "Неизвестный" := by
    simp [check_disk_type, h2]
  refine ⟨hdt, ?_⟩
  have hhdd : pyIn "HDD" "Неизвестный" = false := by decide
  simp [select_disk, h1, hdt, hhdd]

/-- Witness for `C9_unknown_media_skips_confirmation`: the sysfs read fails
for `/dev/sda` and the path is returned with no confirmation consumed. -/
theorem C9_unknown_media_skips_confirmation_witness :
    check_disk_type (fun _ => none) ("/dev/" ++ pyStrip "sda") = "Неизвестный"
    ∧ (select_disk (fun p => p == "/dev/sda") (fun _ => none) ["sda", "n"]).1
        = SelectResult.selected ("/dev/" ++ pyStrip "sda") :=
  C9_unknown_media_skips_confirmation (fun p => p == "/dev/sda") (fun _ => none)
    "sda" ["n"] (by decide) rfl

/-- Claim C10 (confirmed): the final cleanup unmount runs with
`exit_on_error=False` on the buffered path, so even when `umount -R /mnt`
fails the failure is logged, the completion line is still appended, and the
process exits with status 0. -/
theorem C10_cleanup_failure_still_success (env : String → CmdResult)
    (log : List String) (h : (env "umount -R /mnt").exitCode ≠ 0) :
    (main_cleanup env log).1 = 0
    ∧ ("Command failed: umount -R /mnt") ∈ (main_cleanup env log).2
    ∧ "Installation completed successfully" ∈ (main_cleanup env log).2 := by
  simp [main_cleanup, run_command, h]

/-- Witness for `C10_cleanup_failure_still_success`: `umount` exits 32, the
installer still finishes with status 0. -/
theorem C10_cleanup_failure_still_success_witness :
    (((fun _ => CmdResult.mk 32 "" "target is busy") : String → CmdResult)
        "umount -R /mnt").exitCode ≠ 0
    ∧ (main_cleanup (fun _ => CmdResult.mk 32 "" "target is busy") []).1 = 0 :=
  ⟨by decide,
   (C10_cleanup_failure_still_success (fun _ => CmdResult.mk 32 "" "target is busy")
      [] (by decide)).1⟩
